import Mathlib

/-!
# Verification of the walkDog client authentication subsystem

Shallow embedding of the client-side authentication session manager of the
walkDog mobile app (`src/lib/auth-context.tsx`) and of the login rate limiter
(`src/app/utils/rate-limiter.ts`), together with theorems settling the frozen
claims C1..C10 about this subsystem.

Modelling conventions:
* JavaScript strings are Lean `String`s; character-level processing is done on
  `String.data` (`List Char`) so that every definition is executable and
  kernel-reducible.
* `JSON.parse` / `JSON.stringify` (external JS builtins) are modelled by an
  executable parser/renderer over an inductive `JVal` type.  Numeric literals
  are modelled as integers: every number this subsystem reasons about (the
  `exp` claim of a JWT, epoch seconds) is integral.
* `atob` (base64 decoding, external JS builtin) is modelled by an executable
  forgiving-base64 decoder (whitespace stripping is omitted; no input in this
  development contains whitespace inside a token segment).
* Wall-clock reads (`Date.now()`) are modelled by an environment field: the
  clock is constant during a single operation, which is adequate because no
  claim depends on time advancing inside one call.
* `axios` promise semantics: a request either resolves with a 2xx response
  (default `validateStatus`), or rejects with an error carrying the response
  status for non-2xx responses, or rejects with no response attached for a
  network failure.  The code under verification itself relies on this (its
  `catch` blocks read `error.response?.status`).
-/

namespace WalkDog

/-! ## JSON values (model of the data handled by `JSON.parse` / `JSON.stringify`) -/

/-- A JSON value.  Numbers are modelled as integers (see the header comment). -/
inductive JVal where
  | null : JVal
  | bool : Bool → JVal
  | num : Int → JVal
  | str : String → JVal
  | arr : List JVal → JVal
  | obj : List (String × JVal) → JVal
  deriving Repr

/-- JSON whitespace skipping (space, tab, newline, carriage return). -/
def skipWs : List Char → List Char
  | c :: rest =>
      if c = ' ' ∨ c = '\t' ∨ c = '\n' ∨ c = '\r' then skipWs rest else c :: rest
  | [] => []

/-- Value of a hexadecimal digit. -/
def hexVal (c : Char) : Option Nat :=
  if '0' ≤ c ∧ c ≤ '9' then some (c.toNat - 48)
  else if 'a' ≤ c ∧ c ≤ 'f' then some (c.toNat - 97 + 10)
  else if 'A' ≤ c ∧ c ≤ 'F' then some (c.toNat - 65 + 10)
  else none

/-- Single-character JSON string escapes. -/
def escChar (c : Char) : Option Char :=
  if c = '"' then some '"'
  else if c = '\\' then some '\\'
  else if c = '/' then some '/'
  else if c = 'b' then some (Char.ofNat 8)
  else if c = 'f' then some (Char.ofNat 12)
  else if c = 'n' then some '\n'
  else if c = 'r' then some '\r'
  else if c = 't' then some '\t'
  else none

/-- Parse the body of a JSON string literal (the opening quote is already
consumed); returns the content and the remainder after the closing quote. -/
def parseJStrAux : List Char → Option (List Char × List Char)
  | [] => none
  | '"' :: rest => some ([], rest)
  | '\\' :: 'u' :: h1 :: h2 :: h3 :: h4 :: rest =>
      (match hexVal h1, hexVal h2, hexVal h3, hexVal h4, parseJStrAux rest with
       | some a, some b, some g, some d, some (cs, r) =>
           some (Char.ofNat (((a * 16 + b) * 16 + g) * 16 + d) :: cs, r)
       | _, _, _, _, _ => none)
  | '\\' :: e :: rest =>
      (match escChar e, parseJStrAux rest with
       | some ec, some (cs, r) => some (ec :: cs, r)
       | _, _ => none)
  | c :: rest =>
      if c.toNat < 32 then none
      else
        match parseJStrAux rest with
        | some (cs, r) => some (c :: cs, r)
        | none => none

/-- Take a maximal run of decimal digits. -/
def takeDigits : List Char → List Char × List Char
  | c :: rest =>
      if '0' ≤ c ∧ c ≤ '9' then
        let (ds, r) := takeDigits rest
        (c :: ds, r)
      else ([], c :: rest)
  | [] => ([], [])

/-- Numeric value of a digit run. -/
def digitsToNat (ds : List Char) : Nat :=
  ds.foldl (fun a c => a * 10 + (c.toNat - 48)) 0

/-- Parse a JSON number.  Modelled restriction: only integer literals are
accepted (no fraction or exponent part); every number appearing in this
subsystem is an integral epoch timestamp. -/
def parseIntNum (cs : List Char) : Option (Int × List Char) :=
  let (neg, cs') := match cs with
    | '-' :: r => (true, r)
    | _ => (false, cs)
  match takeDigits cs' with
  | ([], _) => none
  | (ds, r) =>
      if 1 < ds.length ∧ ds.head? = some '0' then none
      else
        match r with
        | '.' :: _ => none
        | 'e' :: _ => none
        | 'E' :: _ => none
        | _ => some ((if neg then -(digitsToNat ds : Int) else (digitsToNat ds : Int)), r)

mutual

/-- Fuel-indexed recursive-descent parser for a JSON value. -/
def parseVal : Nat → List Char → Option (JVal × List Char)
  | 0, _ => none
  | Nat.succ fuel, cs =>
      match skipWs cs with
      | [] => none
      | c :: rest =>
          if c = '"' then
            match parseJStrAux rest with
            | some (content, r) => some (.str (String.mk content), r)
            | none => none
          else if c = '\x7b' then
            match skipWs rest with
            | '\x7d' :: r2 => some (.obj [], r2)
            | r1 =>
                match parseMembers fuel r1 with
                | some (fs, r2) => some (.obj fs, r2)
                | none => none
          else if c = '[' then
            match skipWs rest with
            | ']' :: r2 => some (.arr [], r2)
            | r1 =>
                match parseItems fuel r1 with
                | some (xs, r2) => some (.arr xs, r2)
                | none => none
          else if c = 't' then
            match rest with
            | 'r' :: 'u' :: 'e' :: r => some (.bool true, r)
            | _ => none
          else if c = 'f' then
            match rest with
            | 'a' :: 'l' :: 's' :: 'e' :: r => some (.bool false, r)
            | _ => none
          else if c = 'n' then
            match rest with
            | 'u' :: 'l' :: 'l' :: r => some (.null, r)
            | _ => none
          else
            match parseIntNum (c :: rest) with
            | some (n, r) => some (.num n, r)
            | none => none

/-- Comma-separated array items, terminated by a closing bracket. -/
def parseItems : Nat → List Char → Option (List JVal × List Char)
  | 0, _ => none
  | Nat.succ fuel, cs =>
      match parseVal fuel cs with
      | none => none
      | some (v, r) =>
          match skipWs r with
          | ',' :: r2 =>
              (match parseItems fuel r2 with
               | some (xs, r3) => some (v :: xs, r3)
               | none => none)
          | ']' :: r2 => some ([v], r2)
          | _ => none

/-- Comma-separated object members, terminated by a closing brace. -/
def parseMembers : Nat → List Char → Option (List (String × JVal) × List Char)
  | 0, _ => none
  | Nat.succ fuel, cs =>
      match skipWs cs with
      | '"' :: rest =>
          (match parseJStrAux rest with
           | none => none
           | some (key, r) =>
               match skipWs r with
               | ':' :: r2 =>
                   (match parseVal fuel r2 with
                    | none => none
                    | some (v, r3) =>
                        match skipWs r3 with
                        | ',' :: r4 =>
                            (match parseMembers fuel r4 with
                             | some (fs, r5) => some ((String.mk key, v) :: fs, r5)
                             | none => none)
                        | '\x7d' :: r4 => some ([(String.mk key, v)], r4)
                        | _ => none)
               | _ => none)
      | _ => none

end

/-- Model of `JSON.parse`: parse a complete JSON document; `none` models a
thrown `SyntaxError`.  The fuel `cs.length + 2` dominates the nesting depth of
any parseable input, since each nesting level consumes at least one character. -/
def jsonParse (cs : List Char) : Option JVal :=
  match parseVal (cs.length + 2) cs with
  | some (v, r) => if skipWs r = [] then some v else none
  | none => none

/-- Escape the characters of a JSON string for rendering. -/
def escapeChars : List Char → List Char
  | [] => []
  | c :: rest =>
      if c = '"' then '\\' :: '"' :: escapeChars rest
      else if c = '\\' then '\\' :: '\\' :: escapeChars rest
      else c :: escapeChars rest

/-- Quote a string as a JSON string literal. -/
def jstrQuote (s : String) : String :=
  "\"" ++ String.mk (escapeChars s.data) ++ "\""

mutual

/-- Model of `JSON.stringify` on a JSON value. -/
def JVal.render : JVal → String
  | .null => "null"
  | .bool true => "true"
  | .bool false => "false"
  | .num n => toString n
  | .str s => jstrQuote s
  | .arr xs => "[" ++ renderItems xs ++ "]"
  | .obj fs => "\x7b" ++ renderMembers fs ++ "\x7d"

/-- Render array items. -/
def renderItems : List JVal → String
  | [] => ""
  | [x] => JVal.render x
  | x :: xs => JVal.render x ++ "," ++ renderItems xs

/-- Render object members. -/
def renderMembers : List (String × JVal) → String
  | [] => ""
  | [(k, v)] => jstrQuote k ++ ":" ++ JVal.render v
  | (k, v) :: fs => jstrQuote k ++ ":" ++ JVal.render v ++ "," ++ renderMembers fs

end

/-- Property lookup on an object: JavaScript object literal semantics keep the
last binding of a duplicated key; lookup on a non-object yields `undefined`. -/
def getFieldLast (fs : List (String × JVal)) (k : String) : Option JVal :=
  match fs with
  | [] => none
  | (k', v) :: rest =>
      match getFieldLast rest k with
      | some r => some r
      | none => if k' = k then some v else none

/-- Model of JavaScript property access `j[k]` on a decoded JSON value. -/
def JVal.getField : JVal → String → Option JVal
  | .obj fs, k => getFieldLast fs k
  | _, _ => none

/-! ## TokenClock (`decodeJWT`, `isTokenExpiredOrExpiring`, `getTokenTimeRemaining`,
from `src/lib/auth-context.tsx` lines 58-128) -/

/-- Token refresh buffer: refresh 5 minutes before expiration. -/
def TOKEN_REFRESH_BUFFER_SECONDS : Int := 5 * 60

/-- Value of a base64 alphabet character. -/
def b64CharVal (c : Char) : Option Nat :=
  if 'A' ≤ c ∧ c ≤ 'Z' then some (c.toNat - 65)
  else if 'a' ≤ c ∧ c ≤ 'z' then some (c.toNat - 97 + 26)
  else if '0' ≤ c ∧ c ≤ '9' then some (c.toNat - 48 + 52)
  else if c = '+' then some 62
  else if c = '/' then some 63
  else none

/-- Map every character through the base64 alphabet, failing on any
character outside it. -/
def sextets : List Char → Option (List Nat)
  | [] => some []
  | c :: rest =>
      match b64CharVal c, sextets rest with
      | some v, some vs => some (v :: vs)
      | _, _ => none

/-- Reassemble 6-bit groups into bytes; a trailing group of two or three
sextets yields one or two bytes (leftover bits discarded, as in
forgiving-base64). -/
def sextetsToBytes : List Nat → List Nat
  | a :: b :: c :: d :: rest =>
      (a * 4 + b / 16) :: ((b % 16) * 16 + c / 4) :: ((c % 4) * 64 + d) ::
        sextetsToBytes rest
  | [a, b] => [a * 4 + b / 16]
  | [a, b, c] => [a * 4 + b / 16, (b % 16) * 16 + c / 4]
  | _ => []

/-- Strip up to two trailing padding characters. -/
def dropEq (cs : List Char) : List Char :=
  match cs.reverse with
  | '=' :: '=' :: rest => rest.reverse
  | '=' :: rest => rest.reverse
  | _ => cs

/-- Model of the JS builtin `atob` (forgiving-base64 decode to a byte list);
`none` models a thrown `InvalidCharacterError`. -/
def atobBytes (s : List Char) : Option (List Nat) :=
  let body := if s.length % 4 = 0 then dropEq s else s
  if body.any (· = '=') then none
  else if body.length % 4 = 1 then none
  else (sextets body).map sextetsToBytes

/-- Split a character list at every dot, matching `String.prototype.split('.')`. -/
def splitOnDot : List Char → List (List Char)
  | [] => [[]]
  | c :: rest =>
      if c = '.' then [] :: splitOnDot rest
      else
        match splitOnDot rest with
        | g :: gs => (c :: g) :: gs
        | [] => [[c]]

/-- Translate base64url to base64: `-` to `+` and `_` to `/`. -/
def base64UrlToBase64 (cs : List Char) : List Char :=
  cs.map (fun c => if c = '-' then '+' else if c = '_' then '/' else c)

/-- Pad with `=` to a multiple of four characters. -/
def padBase64 (cs : List Char) : List Char :=
  cs ++ List.replicate ((4 - cs.length % 4) % 4) '='

/-- Decode one base64url JWT segment to a JSON value: translate the alphabet,
pad, `atob`, `JSON.parse`.  `none` models any exception caught by `decodeJWT`. -/
def decodePayloadSegment (seg : List Char) : Option JVal :=
  match atobBytes (padBase64 (base64UrlToBase64 seg)) with
  | none => none
  | some bytes => jsonParse (bytes.map Char.ofNat)

/-- Embedding of `decodeJWT` (auth-context.tsx lines 73-96): split on dots,
require exactly three segments, base64url-decode and JSON-parse the middle
segment; `none` on any malformed input. -/
def decodeJWT (token : String) : Option JVal :=
  let parts := splitOnDot token.data
  if parts.length ≠ 3 then none
  else decodePayloadSegment ((parts.get? 1).getD [])

/-- Embedding of `isTokenExpiredOrExpiring` (auth-context.tsx lines 101-114).
`nowSec` is `Math.floor(Date.now() / 1000)`.  The `exp = 0` branch mirrors the
JS falsiness of `payload.exp`; a non-numeric `exp` is modelled fail-closed. -/
def isTokenExpiredOrExpiring (nowSec : Int) (token : String)
    (bufferSeconds : Int := TOKEN_REFRESH_BUFFER_SECONDS) : Bool :=
  match decodeJWT token with
  | none => true
  | some payload =>
      match payload.getField "exp" with
      | some (.num expiresAt) =>
          if expiresAt = 0 then true
          else decide (nowSec ≥ expiresAt - bufferSeconds)
      | _ => true

/-- Embedding of `getTokenTimeRemaining` (auth-context.tsx lines 119-128):
seconds until expiry, negative if already expired, `none` if undecodable. -/
def getTokenTimeRemaining (nowSec : Int) (token : String) : Option Int :=
  match decodeJWT token with
  | none => none
  | some payload =>
      match payload.getField "exp" with
      | some (.num e) => if e = 0 then none else some (e - nowSec)
      | _ => none

/-! ## RateLimiter (`src/app/utils/rate-limiter.ts`) -/

/-- Per-action rate limit state (rate-limiter.ts lines 6-10).  Times are epoch
milliseconds. -/
structure RateLimitState where
  failedAttempts : Nat
  lastAttemptTime : Nat
  lockedUntil : Option Nat
  deriving Repr, DecidableEq

/-- Maximum failed attempts before lockout. -/
def maxFailedAttempts : Nat := 5

/-- Base cooldown in milliseconds (doubles with each failed attempt). -/
def baseCooldownMs : Nat := 1000

/-- Maximum cooldown in milliseconds. -/
def maxCooldownMs : Nat := 60000

/-- Lockout duration after max attempts. -/
def lockoutDurationMs : Nat := 5 * 60 * 1000

/-- Time after which failed attempts reset. -/
def resetAfterMs : Nat := 15 * 60 * 1000

/-- Fresh per-action state. -/
def initialRateLimitState : RateLimitState :=
  { failedAttempts := 0, lastAttemptTime := 0, lockedUntil := none }

/-- The per-action-key state store (`rateLimitStates : Map`). -/
abbrev RateLimitStates := List (String × RateLimitState)

/-- First entry for a key. -/
def getEntry (m : RateLimitStates) (k : String) : Option RateLimitState :=
  match m with
  | [] => none
  | (k', v) :: rest => if k' = k then some v else getEntry rest k

/-- Model of `Map.set`: overwrite the entry for a key, or append it. -/
def setEntry (m : RateLimitStates) (k : String) (v : RateLimitState) :
    RateLimitStates :=
  match m with
  | [] => [(k, v)]
  | (k', v') :: rest =>
      if k' = k then (k, v) :: rest else (k', v') :: setEntry rest k v

/-- Embedding of `getState` (rate-limiter.ts lines 36-45): read the entry for
an action, creating a fresh one if absent. -/
def getState (m : RateLimitStates) (action : String) :
    RateLimitState × RateLimitStates :=
  match getEntry m action with
  | some st => (st, m)
  | none => (initialRateLimitState, setEntry m action initialRateLimitState)

/-- Embedding of `calculateCooldown` (rate-limiter.ts lines 50-56):
exponential backoff capped at the maximum cooldown. -/
def calculateCooldown (failedAttempts : Nat) : Nat :=
  if failedAttempts = 0 then 0
  else min (baseCooldownMs * 2 ^ (failedAttempts - 1)) maxCooldownMs

/-- Embedding of `formatWaitTime` (rate-limiter.ts lines 167-176). -/
def formatWaitTime (ms : Nat) : String :=
  let seconds := (ms + 999) / 1000
  if seconds < 60 then
    toString seconds ++ " second" ++ (if seconds ≠ 1 then "s" else "")
  else
    let minutes := (seconds + 59) / 60
    toString minutes ++ " minute" ++ (if minutes ≠ 1 then "s" else "")

/-- The deny message of the cooldown branch of `checkRateLimit`. -/
def cooldownMessage (waitMs : Nat) : String :=
  "Please wait " ++ formatWaitTime waitMs ++ " before trying again."

/-- The deny message of the lockout branch of `checkRateLimit`. -/
def lockoutMessage (waitMs : Nat) : String :=
  "Too many failed attempts. Please wait " ++ formatWaitTime waitMs ++
    " before trying again."

/-- Result record of `checkRateLimit`. -/
structure CheckResult where
  allowed : Bool
  waitMs : Nat
  message : String
  deriving Repr, DecidableEq

/-- Embedding of `resetRateLimit` (rate-limiter.ts lines 135-141). -/
def resetRateLimit (action : String) (m : RateLimitStates) : RateLimitStates :=
  setEntry m action initialRateLimitState

/-- Embedding of `checkRateLimit` (rate-limiter.ts lines 62-103).  `now` is
`Date.now()` in epoch milliseconds.  The `0 < l` guard mirrors the JS
truthiness test `state.lockedUntil && ...`; `now - lastAttemptTime` uses
truncated subtraction, which coincides with the JS number subtraction in every
branch decision for `now ≥ lastAttemptTime`. -/
def checkRateLimit (action : String) (now : Nat) (m : RateLimitStates) :
    CheckResult × RateLimitStates :=
  let (state, m) := getState m action
  if 0 < state.lastAttemptTime ∧ resetAfterMs < now - state.lastAttemptTime then
    ({ allowed := true, waitMs := 0, message := "" }, resetRateLimit action m)
  else
    let lockRes : Option CheckResult :=
      match state.lockedUntil with
      | some l =>
          if 0 < l ∧ now < l then
            some { allowed := false, waitMs := l - now,
                   message := lockoutMessage (l - now) }
          else none
      | none => none
    let cooldownRes : CheckResult :=
      if 0 < state.failedAttempts then
        let cooldown := calculateCooldown state.failedAttempts
        let timeSinceLastAttempt := now - state.lastAttemptTime
        if timeSinceLastAttempt < cooldown then
          { allowed := false, waitMs := cooldown - timeSinceLastAttempt,
            message := cooldownMessage (cooldown - timeSinceLastAttempt) }
        else { allowed := true, waitMs := 0, message := "" }
      else { allowed := true, waitMs := 0, message := "" }
    (lockRes.getD cooldownRes, m)

/-- The state mutation performed by `recordFailedAttempt` on one action's
state: increment the counter, stamp the time, lock out at the threshold. -/
def bumpState (now : Nat) (st : RateLimitState) : RateLimitState :=
  let st := { st with failedAttempts := st.failedAttempts + 1,
                      lastAttemptTime := now }
  if maxFailedAttempts ≤ st.failedAttempts then
    { st with lockedUntil := some (now + lockoutDurationMs) }
  else st

/-- Embedding of `recordFailedAttempt` (rate-limiter.ts lines 108-123). -/
def recordFailedAttempt (action : String) (now : Nat) (m : RateLimitStates) :
    RateLimitStates :=
  let (st, m) := getState m action
  setEntry m action (bumpState now st)

/-- A sequence of consecutive `recordFailedAttempt` calls at the given times. -/
def recordFailures (action : String) (ts : List Nat) (m : RateLimitStates) :
    RateLimitStates :=
  ts.foldl (fun m t => recordFailedAttempt action t m) m

/-- Embedding of `recordSuccessfulAttempt` (rate-limiter.ts lines 128-130). -/
def recordSuccessfulAttempt (action : String) (m : RateLimitStates) :
    RateLimitStates :=
  resetRateLimit action m

/-! ## Effect model for the SessionManager (`src/lib/auth-context.tsx`)

The session manager's operations are asynchronous JS functions acting on
SecureStore, React state and the network.  They are embedded as computations
in a state monad with exceptions: `M α = AuthEnv → AppSt → Except JsError α × AppSt`.
State mutations performed before a throw persist, exactly as in JS. -/

/-- A thrown JS value: either an axios rejection (carrying
`error.response?.status`; `none` models a network failure with no response) or
`new Error(msg)`. -/
inductive JsError where
  | axiosErr (status : Option Nat)
  | jsErr (msg : String)
  deriving Repr, DecidableEq

/-- Response body of the token endpoints (`/auth/refresh`, `/auth/login`):
every field the code reads, each possibly absent. -/
structure TokenRespData where
  access_token : Option String
  token : Option String
  refresh_token : Option String
  deriving Repr, DecidableEq

/-- Response body of `POST /walks`. -/
structure WalkRespData where
  walkId : Option Nat
  deriving Repr, DecidableEq

/-- Outcome of one axios request: resolve with a (2xx) status and data, reject
with a response status, or reject with no response (network error). -/
inductive HttpOut (δ : Type) where
  | ok (status : Nat) (data : δ)
  | httpErr (status : Nat)
  | netErr
  deriving Repr, DecidableEq

/-- One GPS sample of a guest walk (auth-context.tsx lines 21-26); numeric
fields are inert payload here and modelled as integers. -/
structure GuestCoordinate where
  latitude : Int
  longitude : Int
  timestamp : Int
  accuracy : Option Int
  deriving Repr, DecidableEq

/-- Guest walk payload (auth-context.tsx lines 15-31). -/
structure GuestWalkData where
  id : String
  startedAt : String
  endedAt : Option String
  duration : Int
  distance : Int
  routeCoordinates : List GuestCoordinate
  title : Option String
  notes : Option String
  startLatitude : Int
  startLongitude : Int
  deriving Repr, DecidableEq

/-- A record of one outbound API request (used to reason about which calls
were attempted, how often, and with which bearer token). -/
inductive ApiCall where
  | refreshC (refreshToken : String)
  | profileC (accessToken : String)
  | loginC (email : String) (password : String)
  | createC (accessToken : String)
  | trackC (accessToken : String) (walkId : Option Nat)
  | stopC (accessToken : String) (walkId : Option Nat)
  | wrappedC (accessToken : String)
  deriving Repr, DecidableEq

/-- The environment: the wall clock and, for every endpoint, the outcome of
its `n`-th invocation.  `wrappedEp` drives the generic test request function
used to exercise `authenticatedRequest`. -/
structure AuthEnv where
  nowSec : Int
  refreshEp : Nat → HttpOut TokenRespData
  profileEp : Nat → HttpOut (Option JVal)
  loginEp : Nat → HttpOut TokenRespData
  createWalkEp : Nat → HttpOut WalkRespData
  trackEp : Nat → HttpOut Unit
  stopEp : Nat → HttpOut Unit
  wrappedEp : Nat → Except JsError Nat

/-- The mutable app state: the three SecureStore entries (`auth_token`,
`refresh_token`, `user_data`), the React state (`token`, `user`, `isLoading`),
and the log of issued API calls. -/
structure AppSt where
  storToken : Option String
  storRefresh : Option String
  storUser : Option String
  token : Option String
  user : Option JVal
  isLoading : Bool
  log : List ApiCall
  deriving Repr

/-- The computation monad: environment, state, JS exceptions. -/
def M (α : Type) : Type := AuthEnv → AppSt → Except JsError α × AppSt

instance : Monad M where
  pure a := fun _ s => (Except.ok a, s)
  bind x f := fun env s =>
    match x env s with
    | (Except.ok a, s') => f a env s'
    | (Except.error e, s') => (Except.error e, s')

/-- Throw a JS value. -/
def M.throw {α : Type} (e : JsError) : M α := fun _ s => (Except.error e, s)

/-- Model of `try ... catch`: state changes made before the throw persist. -/
def M.tryCatch {α : Type} (x : M α) (handle : JsError → M α) : M α :=
  fun env s =>
    match x env s with
    | (Except.ok a, s') => (Except.ok a, s')
    | (Except.error e, s') => handle e env s'

/-- Read the environment. -/
def M.env : M AuthEnv := fun env s => (Except.ok env, s)

/-- Read the state. -/
def M.get : M AppSt := fun _ s => (Except.ok s, s)

/-- Update the state. -/
def M.modify (f : AppSt → AppSt) : M Unit := fun _ s => (Except.ok (), f s)

/-- The three SecureStore keys used by the session manager. -/
inductive StoreKey where
  | tokenKey
  | refreshTokenKey
  | userKey
  deriving Repr, DecidableEq

/-- Model of `SecureStore.getItemAsync`. -/
def storageGet (k : StoreKey) : M (Option String) := do
  let s ← M.get
  pure (match k with
        | .tokenKey => s.storToken
        | .refreshTokenKey => s.storRefresh
        | .userKey => s.storUser)

/-- Model of `SecureStore.setItemAsync`. -/
def storageSet (k : StoreKey) (v : String) : M Unit :=
  M.modify fun s =>
    match k with
    | .tokenKey => { s with storToken := some v }
    | .refreshTokenKey => { s with storRefresh := some v }
    | .userKey => { s with storUser := some v }

/-- Model of `SecureStore.deleteItemAsync`. -/
def storageDelete (k : StoreKey) : M Unit :=
  M.modify fun s =>
    match k with
    | .tokenKey => { s with storToken := none }
    | .refreshTokenKey => { s with storRefresh := none }
    | .userKey => { s with storUser := none }

/-- JS truthiness of a string-or-nullish value: `null`, `undefined` and the
empty string are falsy. -/
def jsTruthyStr : Option String → Bool
  | none => false
  | some s => !s.isEmpty

/-- JS `a || b` on string-or-nullish values. -/
def jsOrStr (a b : Option String) : Option String :=
  if jsTruthyStr a then a else b

/-- JS `a || b` where `b` is a definite string. -/
def jsOrStrD (a : Option String) (b : String) : String :=
  if jsTruthyStr a then a.getD "" else b

/-- React `setToken`. -/
def setTokenState (t : Option String) : M Unit :=
  M.modify fun s => { s with token := t }

/-- React `setUser`. -/
def setUserState (u : Option JVal) : M Unit :=
  M.modify fun s => { s with user := u }

/-- React `setIsLoading`. -/
def setIsLoadingState (b : Bool) : M Unit :=
  M.modify fun s => { s with isLoading := b }

/-- Append an issued request to the log. -/
def logCall (c : ApiCall) : M Unit :=
  M.modify fun s => { s with log := s.log ++ [c] }

/-- Count the log entries satisfying a predicate. -/
def countCalls (p : ApiCall → Bool) (log : List ApiCall) : Nat :=
  (log.filter p).length

/-- Recogniser for refresh calls. -/
def isRefreshC : ApiCall → Bool
  | .refreshC _ => true
  | _ => false

/-- Recogniser for profile calls. -/
def isProfileC : ApiCall → Bool
  | .profileC _ => true
  | _ => false

/-- Recogniser for login calls. -/
def isLoginC : ApiCall → Bool
  | .loginC _ _ => true
  | _ => false

/-- Recogniser for walk-creation calls. -/
def isCreateC : ApiCall → Bool
  | .createC _ => true
  | _ => false

/-- Recogniser for track-upload calls. -/
def isTrackC : ApiCall → Bool
  | .trackC _ _ => true
  | _ => false

/-- Recogniser for stop calls. -/
def isStopC : ApiCall → Bool
  | .stopC _ _ => true
  | _ => false

/-- Recogniser for calls of the generic wrapped request. -/
def isWrappedC : ApiCall → Bool
  | .wrappedC _ => true
  | _ => false

/-- Issue the `n`-th refresh request, where `n` counts prior refresh requests. -/
def callRefresh (rt : String) : M (HttpOut TokenRespData) := do
  let s ← M.get
  let idx := countCalls isRefreshC s.log
  logCall (.refreshC rt)
  let env ← M.env
  pure (env.refreshEp idx)

/-- Issue the `n`-th profile request. -/
def callProfile (tok : String) : M (HttpOut (Option JVal)) := do
  let s ← M.get
  let idx := countCalls isProfileC s.log
  logCall (.profileC tok)
  let env ← M.env
  pure (env.profileEp idx)

/-- Issue the `n`-th login request. -/
def callLogin (email password : String) : M (HttpOut TokenRespData) := do
  let s ← M.get
  let idx := countCalls isLoginC s.log
  logCall (.loginC email password)
  let env ← M.env
  pure (env.loginEp idx)

/-- Issue the `n`-th walk-creation request. -/
def callCreate (tok : String) : M (HttpOut WalkRespData) := do
  let s ← M.get
  let idx := countCalls isCreateC s.log
  logCall (.createC tok)
  let env ← M.env
  pure (env.createWalkEp idx)

/-- Issue the `n`-th track-upload request. -/
def callTrack (tok : String) (walkId : Option Nat) : M (HttpOut Unit) := do
  let s ← M.get
  let idx := countCalls isTrackC s.log
  logCall (.trackC tok walkId)
  let env ← M.env
  pure (env.trackEp idx)

/-- Issue the `n`-th stop request. -/
def callStop (tok : String) (walkId : Option Nat) : M (HttpOut Unit) := do
  let s ← M.get
  let idx := countCalls isStopC s.log
  logCall (.stopC tok walkId)
  let env ← M.env
  pure (env.stopEp idx)

/-- Resolve an axios outcome as the `await` of the promise does: a resolved
response yields its status and data, a rejection throws. -/
def axiosResolve {δ : Type} : HttpOut δ → M (Nat × δ)
  | .ok st d => pure (st, d)
  | .httpErr st => M.throw (.axiosErr (some st))
  | .netErr => M.throw (.axiosErr none)

/-- Model of `JSON.parse` inside the monad: throws `SyntaxError` on invalid
input. -/
def jsonParseM (s : String) : M JVal :=
  match jsonParse s.data with
  | some j => pure j
  | none => M.throw (.jsErr "JSON_PARSE_ERROR")

/-! ## Embedded SessionManager operations -/

/-- Embedding of `refreshAccessToken` (auth-context.tsx lines 335-371): POST
the refresh token; on resolve, read `access_token || token` (null if falsy)
and `refresh_token || refreshToken`; a 401/403 (and any other HTTP error)
yields `null`; a network error throws `NETWORK_ERROR`. -/
def refreshAccessToken (refreshToken : String) :
    M (Option (String × String)) := do
  let out ← callRefresh refreshToken
  match out with
  | .ok _ data =>
      let newAccessToken := jsOrStr data.access_token data.token
      let newRefreshToken := jsOrStrD data.refresh_token refreshToken
      if !jsTruthyStr newAccessToken then
        pure none
      else
        pure (some (newAccessToken.getD "", newRefreshToken))
  | .httpErr status =>
      if status = 401 ∨ status = 403 then pure none
      else pure none
  | .netErr => M.throw (.jsErr "NETWORK_ERROR")

/-- Embedding of `fetchUserProfile` (auth-context.tsx lines 373-404): GET the
profile; resolve with status 200 and truthy data yields the profile, 401/403
(and any other HTTP error) yields `null`, a network error throws
`NETWORK_ERROR`.  In the oracle data, `none` models falsy `response.data`. -/
def fetchUserProfile (accessToken : String) : M (Option JVal) := do
  let out ← callProfile accessToken
  match out with
  | .ok status data =>
      if status = 200 then pure data else pure none
  | .httpErr status =>
      if status = 401 ∨ status = 403 then pure none
      else pure none
  | .netErr => M.throw (.jsErr "NETWORK_ERROR")

/-- Embedding of `clearStoredAuth` (auth-context.tsx lines 259-267): delete
the three stored keys. -/
def clearStoredAuth : M Unit := do
  storageDelete .tokenKey
  storageDelete .refreshTokenKey
  storageDelete .userKey

/-- Embedding of `authenticatedRequest` (auth-context.tsx lines 270-333):
pre-flight proactive refresh when the current token is expired-or-expiring,
then the request, then a single reactive refresh-and-retry on a 401
rejection; a reactive refresh returning `null` destroys the session and
re-throws the original error. -/
def authenticatedRequest {α : Type} (requestFn : String → M α) : M α := do
  let s ← M.get
  if !jsTruthyStr s.token then
    M.throw (.jsErr "Not authenticated")
  else
    let tok := s.token.getD ""
    let env ← M.env
    let currentToken ←
      if isTokenExpiredOrExpiring env.nowSec tok TOKEN_REFRESH_BUFFER_SECONDS then do
        let storedRefreshToken ← storageGet .refreshTokenKey
        if jsTruthyStr storedRefreshToken then do
          let newTokens ← refreshAccessToken (storedRefreshToken.getD "")
          match newTokens with
          | some (a, r) => do
              storageSet .tokenKey a
              storageSet .refreshTokenKey r
              setTokenState (some a)
              pure a
          | none => pure tok
        else pure tok
      else pure tok
    M.tryCatch (requestFn currentToken)
      (fun error =>
        match error with
        | .axiosErr (some 401) => do
            let storedRefreshToken ← storageGet .refreshTokenKey
            if jsTruthyStr storedRefreshToken then do
              let newTokens ← refreshAccessToken (storedRefreshToken.getD "")
              match newTokens with
              | some (a, r) => do
                  storageSet .tokenKey a
                  storageSet .refreshTokenKey r
                  setTokenState (some a)
                  requestFn a
              | none => do
                  clearStoredAuth
                  setTokenState none
                  setUserState none
                  M.throw error
            else M.throw error
        | _ => M.throw error)

/-- JS test `timeRemaining !== null && timeRemaining > TOKEN_REFRESH_BUFFER_SECONDS`. -/
def tmAboveBuffer : Option Int → Bool
  | some t => decide (t > TOKEN_REFRESH_BUFFER_SECONDS)
  | none => false

/-- JS test `timeRemaining !== null && timeRemaining > 0`. -/
def tmPositive : Option Int → Bool
  | some t => decide (t > 0)
  | none => false

/-- Embedding of `loadStoredAuth` (auth-context.tsx lines 153-257).  The JS
early returns are expressed as if/else nesting (nothing follows them in the
source either); the fire-and-forget background revalidation of the
still-valid-token branch runs with its errors swallowed, which yields the
same settled state as the event-loop execution. -/
def loadStoredAuth : M Unit := do
  M.tryCatch
    (do
      let storedToken ← storageGet .tokenKey
      let storedRefreshToken ← storageGet .refreshTokenKey
      let storedUser ← storageGet .userKey
      if jsTruthyStr storedToken ∧ jsTruthyStr storedUser then
        let tok := storedToken.getD ""
        let usr := storedUser.getD ""
        let env ← M.env
        let timeRemaining := getTokenTimeRemaining env.nowSec tok
        if tmAboveBuffer timeRemaining then do
          setTokenState (some tok)
          let u ← jsonParseM usr
          setUserState (some u)
          M.tryCatch
            (do
              let validatedUser ← fetchUserProfile tok
              match validatedUser with
              | some vu => do
                  storageSet .userKey (JVal.render vu)
                  setUserState (some vu)
              | none => pure ())
            (fun _ => pure ())
        else if jsTruthyStr storedRefreshToken then
          M.tryCatch
            (do
              let newTokens ← refreshAccessToken (storedRefreshToken.getD "")
              match newTokens with
              | some (a, r) => do
                  let validatedUser ← fetchUserProfile a
                  match validatedUser with
                  | some vu => do
                      storageSet .tokenKey a
                      storageSet .refreshTokenKey r
                      storageSet .userKey (JVal.render vu)
                      setTokenState (some a)
                      setUserState (some vu)
                  | none => clearStoredAuth
              | none => clearStoredAuth)
            (fun refreshError => do
              if refreshError = .jsErr "NETWORK_ERROR" ∧
                 tmPositive timeRemaining then do
                setTokenState (some tok)
                let u ← jsonParseM usr
                setUserState (some u)
              else
                M.throw refreshError)
        else
          M.tryCatch
            (do
              let validatedUser ← fetchUserProfile tok
              match validatedUser with
              | some vu => do
                  setTokenState (some tok)
                  setUserState (some vu)
                  storageSet .userKey (JVal.render vu)
              | none => clearStoredAuth)
            (fun validationError => do
              if validationError = .jsErr "NETWORK_ERROR" then do
                setTokenState (some tok)
                let u ← jsonParseM usr
                setUserState (some u)
              else
                M.throw validationError)
      else
        pure ())
    (fun _ => clearStoredAuth)
  setIsLoadingState false

/-- Embedding of `login` (auth-context.tsx lines 406-464): POST the
credentials; store the issued tokens; fetch the profile; only a successful
profile fetch marks the session authenticated; every failure is caught and
reported as `false`. -/
def login (email password : String) : M Bool := do
  let r ← M.tryCatch
    (do
      setIsLoadingState true
      let resp ← callLogin email password >>= axiosResolve
      let accessToken := jsOrStr resp.2.access_token resp.2.token
      let refreshToken := resp.2.refresh_token
      if !jsTruthyStr accessToken then
        M.throw (.jsErr "No access token in response")
      else do
        let a := accessToken.getD ""
        storageSet .tokenKey a
        if jsTruthyStr refreshToken then
          storageSet .refreshTokenKey (refreshToken.getD "")
        let userProfile ← fetchUserProfile a
        match userProfile with
        | none => M.throw (.jsErr "Failed to fetch user profile")
        | some u => do
            storageSet .userKey (JVal.render u)
            setTokenState (some a)
            setUserState (some u)
            setIsLoadingState false
            pure true)
    (fun _ => pure false)
  M.modify fun s => { s with isLoading := if s.isLoading then false else s.isLoading }
  pure r

/-- Embedding of `migrateGuestWalk` (auth-context.tsx lines 520-602): through
`authenticatedRequest`, create the walk (non-200/201 resolve throws), batch
the coordinates when there are any (non-200/201 resolve only warns), stop the
walk (likewise only warns); any thrown error is caught and reported as
`false`. -/
def migrateGuestWalk (walkData : GuestWalkData) : M Bool := do
  let s ← M.get
  if !jsTruthyStr s.token then
    pure false
  else
    M.tryCatch
      (authenticatedRequest fun accessToken => do
        let createResponse ← callCreate accessToken >>= axiosResolve
        if createResponse.1 ≠ 200 ∧ createResponse.1 ≠ 201 then
          M.throw (.jsErr "Failed to create walk")
        else do
          let walkId := createResponse.2.walkId
          if 0 < walkData.routeCoordinates.length then do
            let _trackResponse ← callTrack accessToken walkId >>= axiosResolve
            pure ()
          let _stopResponse ← callStop accessToken walkId >>= axiosResolve
          pure true)
      (fun _ => pure false)

/-- A generic wrapped request for exercising `authenticatedRequest`: it logs
its invocation with the bearer token it received and produces the outcome the
environment prescribes for its `n`-th invocation. -/
def wrappedRequest (tok : String) : M Nat := do
  let s ← M.get
  let idx := countCalls isWrappedC s.log
  logCall (.wrappedC tok)
  let env ← M.env
  match env.wrappedEp idx with
  | .ok n => pure n
  | .error e => M.throw e

/-- The bearer tokens of the wrapped-request invocations recorded in a log,
in order. -/
def wrappedTokens (log : List ApiCall) : List String :=
  log.filterMap fun c =>
    match c with
    | .wrappedC tok => some tok
    | _ => none

/-! ## Execution lemmas for the monad -/

/-- Evaluation of `bind`. -/
@[simp] theorem M.bind_eq {α β : Type} (x : M α) (f : α → M β)
    (env : AuthEnv) (s : AppSt) :
    (x >>= f) env s =
      match x env s with
      | (Except.ok a, s') => f a env s'
      | (Except.error e, s') => (Except.error e, s') := rfl

/-- Evaluation of `pure`. -/
@[simp] theorem M.pure_eq {α : Type} (a : α) (env : AuthEnv) (s : AppSt) :
    (pure a : M α) env s = (Except.ok a, s) := rfl

/-- Evaluation of `tryCatch`. -/
@[simp] theorem M.tryCatch_eq {α : Type} (x : M α) (h : JsError → M α)
    (env : AuthEnv) (s : AppSt) :
    M.tryCatch x h env s =
      match x env s with
      | (Except.ok a, s') => (Except.ok a, s')
      | (Except.error e, s') => h e env s' := rfl

/-- A non-empty string is truthy. -/
theorem jsTruthyStr_some {t : String} (h : t ≠ "") :
    jsTruthyStr (some t) = true := by
  have : t.isEmpty = false := by
    by_contra hc
    exact h ((String.isEmpty_iff t).mp (by simpa using hc))
  simp [jsTruthyStr, this]

/-- Nullish values are falsy. -/
@[simp] theorem jsTruthyStr_none : jsTruthyStr none = false := rfl

/-! ## Helper lemmas for the rate limiter -/

/-- Looking up a key right after setting it yields the set value. -/
theorem getEntry_setEntry_self (m : RateLimitStates) (k : String)
    (v : RateLimitState) : getEntry (setEntry m k v) k = some v := by
  induction m with
  | nil => simp [setEntry, getEntry]
  | cons hd tl ih =>
      obtain ⟨k', v'⟩ := hd
      by_cases h : k' = k
      · simp [setEntry, getEntry, h]
      · simp [setEntry, getEntry, h, ih]

/-- Setting the same key twice keeps only the second value. -/
theorem setEntry_setEntry (m : RateLimitStates) (k : String)
    (v w : RateLimitState) : setEntry (setEntry m k v) k w = setEntry m k w := by
  induction m with
  | nil => simp [setEntry]
  | cons hd tl ih =>
      obtain ⟨k', v'⟩ := hd
      by_cases h : k' = k
      · simp [setEntry, h]
      · simp [setEntry, h, ih]

/-- A run of failed attempts starting from a freshly set entry folds
`bumpState` over the attempt times. -/
theorem recordFailures_from_set (action : String) (ts : List Nat)
    (m : RateLimitStates) (v : RateLimitState) :
    recordFailures action ts (setEntry m action v) =
      setEntry m action (ts.foldl (fun st u => bumpState u st) v) := by
  induction ts generalizing v with
  | nil => simp [recordFailures]
  | cons t ts ih =>
      have h1 : recordFailedAttempt action t (setEntry m action v) =
          setEntry m action (bumpState t v) := by
        simp [recordFailedAttempt, getState, getEntry_setEntry_self,
          setEntry_setEntry]
      simp only [recordFailures, List.foldl_cons] at ih ⊢
      rw [h1, ih]

/-- A non-empty run of failed attempts starting from the empty store leaves a
single entry obtained by folding `bumpState` over the fresh state. -/
theorem recordFailures_from_empty (action : String) (t : Nat) (ts : List Nat) :
    recordFailures action (t :: ts) [] =
      [(action, (t :: ts).foldl (fun st u => bumpState u st)
          initialRateLimitState)] := by
  have h0 : recordFailedAttempt action t ([] : RateLimitStates) =
      setEntry [] action (bumpState t initialRateLimitState) := by
    simp [recordFailedAttempt, getState, getEntry, setEntry, setEntry_setEntry]
  have h1 := recordFailures_from_set action ts [] (bumpState t initialRateLimitState)
  simp only [recordFailures, List.foldl_cons] at h1 ⊢
  rw [h0, h1]
  rfl

/-- Closed form of a fold of at most five `bumpState` steps over the fresh
state: the counter equals the number of attempts, the stamp is the last
attempt time, and the lockout is set exactly when the threshold is reached. -/
theorem foldBump_eq (ts : List Nat) (hne : ts ≠ []) (h5 : ts.length ≤ 5) :
    ts.foldl (fun st u => bumpState u st) initialRateLimitState =
      { failedAttempts := ts.length,
        lastAttemptTime := ts.getLast hne,
        lockedUntil :=
          if ts.length = 5 then some (ts.getLast hne + lockoutDurationMs)
          else none } := by
  induction ts using List.reverseRecOn with
  | nil => cases hne rfl
  | append_singleton ts t ih =>
      rcases eq_or_ne ts [] with h | h
      · subst h
        simp [bumpState, initialRateLimitState, maxFailedAttempts]
      · have hlen : ts.length ≤ 5 := by
          have := h5
          simp [List.length_append] at this
          omega
        have hfold := ih h hlen
        have hlt : ts.length + 1 ≤ 5 := by
          have := h5
          simp [List.length_append] at this
          omega
        rw [List.foldl_append, hfold]
        rcases Nat.lt_or_ge (ts.length + 1) 5 with h51 | h51
        · have hn5 : ts.length ≠ 5 := by omega
          have hn5' : ¬ ts.length + 1 = 5 := by omega
          have hnle : ¬ maxFailedAttempts ≤ ts.length + 1 := by
            simp only [maxFailedAttempts]
            omega
          simp [bumpState, List.getLast_append, hn5, hn5', hnle]
        · have hl4 : ts.length = 4 := by omega
          simp [bumpState, maxFailedAttempts, List.getLast_append, hl4]

/-- The cooldown of at least one failed attempt is positive. -/
theorem calculateCooldown_pos {n : Nat} (h : 0 < n) : 0 < calculateCooldown n := by
  have hn : n ≠ 0 := Nat.pos_iff_ne_zero.mp h
  simp only [calculateCooldown, hn, if_false]
  have h1 : 0 < baseCooldownMs * 2 ^ (n - 1) :=
    Nat.mul_pos (by simp [baseCooldownMs]) (Nat.pos_pow_of_pos _ (by omega))
  have h2 : 0 < maxCooldownMs := by simp [maxCooldownMs]
  omega

/-- C7: for every action key, `n` consecutive failures with `0 < n < 5`
followed by an immediate re-check deny with exactly the exponential-backoff
cooldown `min(baseCooldownMs * 2 ^ (n - 1), maxCooldownMs)`, and five
consecutive failures followed by an immediate re-check deny citing lockout
with the full (remaining) lockout duration, regardless of the backoff
formula. -/
theorem C7_backoff_and_lockout (action : String) (ts : List Nat)
    (hne : ts ≠ []) (h5 : ts.length ≤ 5) :
    (ts.length < 5 →
      (checkRateLimit action (ts.getLast hne) (recordFailures action ts [])).1 =
        { allowed := false, waitMs := calculateCooldown ts.length,
          message := cooldownMessage (calculateCooldown ts.length) } ∧
      calculateCooldown ts.length =
        min (baseCooldownMs * 2 ^ (ts.length - 1)) maxCooldownMs) ∧
    (ts.length = 5 →
      (checkRateLimit action (ts.getLast hne) (recordFailures action ts [])).1 =
        { allowed := false, waitMs := lockoutDurationMs,
          message := lockoutMessage lockoutDurationMs }) := by
  obtain ⟨t, ts', rfl⟩ := List.exists_cons_of_ne_nil hne
  rw [recordFailures_from_empty, foldBump_eq _ hne h5]
  constructor
  · intro hlt
    have hn5 : ¬ (t :: ts').length = 5 := by omega
    have hn4 : ¬ ts'.length = 4 := by
      simp only [List.length_cons] at hn5
      omega
    have hc : 0 < calculateCooldown (ts'.length + 1) :=
      calculateCooldown_pos (by omega)
    constructor
    · simp [checkRateLimit, getState, getEntry, hn5, hn4, resetAfterMs,
        Nat.sub_self, hc]
    · have hn0 : (t :: ts').length ≠ 0 := by simp
      simp [calculateCooldown, hn0]
  · intro he5
    simp [checkRateLimit, getState, getEntry, he5, resetAfterMs, Nat.sub_self,
      lockoutDurationMs]

/-- Witness for `C7_backoff_and_lockout`: three failures at `t = 0, 1, 2`
seconds deny for exactly 4 seconds; five failures deny citing lockout for
exactly 5 minutes. -/
theorem C7_witness :
    (checkRateLimit "login" 2000 (recordFailures "login" [0, 1000, 2000] [])).1 =
      { allowed := false, waitMs := 4000,
        message := "Please wait 4 seconds before trying again." } ∧
    (checkRateLimit "login" 9000
        (recordFailures "login" [5000, 6000, 7000, 8000, 9000] [])).1 =
      { allowed := false, waitMs := 300000,
        message := "Too many failed attempts. Please wait 5 minutes before trying again." } := by
  constructor
  · exact (((C7_backoff_and_lockout "login" [0, 1000, 2000] (by decide)
      (by decide)).1 (by decide)).1).trans (by decide)
  · exact ((C7_backoff_and_lockout "login" [5000, 6000, 7000, 8000, 9000]
      (by decide) (by decide)).2 (by decide)).trans (by decide)

/-! ## Claims about the TokenClock -/

/-- C8: a token whose decoded `exp` claim equals `now + k` (with `exp` a
genuine positive epoch timestamp) is reported expired-or-expiring under
buffer `b` exactly when `k ≤ b`. -/
theorem C8_buffer_monotonicity (token : String) (p : JVal)
    (nowSec k buffer : Int)
    (hdec : decodeJWT token = some p)
    (hexp : p.getField "exp" = some (.num (nowSec + k)))
    (hpos : 0 < nowSec + k) :
    (isTokenExpiredOrExpiring nowSec token buffer = true ↔ k ≤ buffer) := by
  have hne : nowSec + k ≠ 0 := by omega
  simp only [isTokenExpiredOrExpiring, hdec, hexp, hne, if_false,
    decide_eq_true_eq]
  omega

/-- Witness for `C8_buffer_monotonicity` at the token with payload
`exp = 1000`, `now = 900`, `k = 100`, `buffer = 300`. -/
theorem C8_witness :
    (isTokenExpiredOrExpiring 900 "x.eyJleHAiOjEwMDB9.y" 300 = true ↔
      (100 : Int) ≤ 300) :=
  C8_buffer_monotonicity "x.eyJleHAiOjEwMDB9.y"
    (.obj [("exp", .num 1000)]) 900 100 300 rfl rfl (by decide)

/-- C9: a token that does not split into exactly three dot-separated
segments, or whose middle segment does not base64url-decode to valid JSON,
decodes to `null` (no exception escapes, by totality) and is reported
expired; a decodable token whose claims lack an `exp` field is likewise
reported expired. -/
theorem C9_malformed_token_fail_closed :
    (∀ (s : String) (nowSec buffer : Int), (splitOnDot s.data).length ≠ 3 →
        decodeJWT s = none ∧ isTokenExpiredOrExpiring nowSec s buffer = true) ∧
    (∀ (s : String) (nowSec buffer : Int),
        decodePayloadSegment (((splitOnDot s.data).get? 1).getD []) = none →
        decodeJWT s = none ∧ isTokenExpiredOrExpiring nowSec s buffer = true) ∧
    (∀ (s : String) (p : JVal) (nowSec buffer : Int),
        decodeJWT s = some p → p.getField "exp" = none →
        isTokenExpiredOrExpiring nowSec s buffer = true) := by
  refine ⟨?_, ?_, ?_⟩
  · intro s nowSec buffer h
    have hd : decodeJWT s = none := by simp [decodeJWT, h]
    exact ⟨hd, by simp [isTokenExpiredOrExpiring, hd]⟩
  · intro s nowSec buffer h
    have hd : decodeJWT s = none := by
      by_cases h3 : (splitOnDot s.data).length = 3
      · unfold decodeJWT
        rw [if_neg (by simp [h3])]
        exact h
      · simp [decodeJWT, h3]
    exact ⟨hd, by simp [isTokenExpiredOrExpiring, hd]⟩
  · intro s p nowSec buffer hdec hexp
    simp [isTokenExpiredOrExpiring, hdec, hexp]

/-- Witness for `C9_malformed_token_fail_closed`: a one-segment token, a
token with an undecodable middle segment, and a token with an empty claims
object. -/
theorem C9_witness :
    (decodeJWT "abc" = none ∧ isTokenExpiredOrExpiring 0 "abc" 300 = true) ∧
    (decodeJWT "x.!!.y" = none ∧
      isTokenExpiredOrExpiring 0 "x.!!.y" 300 = true) ∧
    isTokenExpiredOrExpiring 0 "x.e30.y" 300 = true :=
  ⟨C9_malformed_token_fail_closed.1 "abc" 0 300 (by decide),
   C9_malformed_token_fail_closed.2.1 "x.!!.y" 0 300 rfl,
   C9_malformed_token_fail_closed.2.2 "x.e30.y" (.obj []) 0 300 rfl rfl⟩

/-! ## Concrete fixtures

Two syntactically valid bearer tokens (payloads `{"exp":2000}` and
`{"exp":1000}`), a base environment in which every endpoint fails with a
network error, a base app state, and a one-coordinate guest walk. -/

/-- A token with decoded payload `exp = 2000`. -/
def tokenExp2000 : String := "x.eyJleHAiOjIwMDB9.y"

/-- A token with decoded payload `exp = 1000`. -/
def tokenExp1000 : String := "x.eyJleHAiOjEwMDB9.y"

/-- Base environment: clock at 0, every endpoint fails with a network error. -/
def baseEnv : AuthEnv where
  nowSec := 0
  refreshEp := fun _ => .netErr
  profileEp := fun _ => .netErr
  loginEp := fun _ => .netErr
  createWalkEp := fun _ => .netErr
  trackEp := fun _ => .netErr
  stopEp := fun _ => .netErr
  wrappedEp := fun _ => .error (.jsErr "unused")

/-- Base app state: empty storage, no session, nothing logged. -/
def baseSt : AppSt where
  storToken := none
  storRefresh := none
  storUser := none
  token := none
  user := none
  isLoading := true
  log := []

/-- A guest walk with one recorded route coordinate. -/
def walkOneCoord : GuestWalkData where
  id := "g1"
  startedAt := "t0"
  endedAt := none
  duration := 60
  distance := 100
  routeCoordinates :=
    [{ latitude := 1, longitude := 2, timestamp := 3, accuracy := none }]
  title := none
  notes := none
  startLatitude := 1
  startLongitude := 2

/-! ## C1: migration with a failing track upload -/

/-- Environment for C1: walk creation resolves 201, the track upload is
rejected with HTTP 500, the stop endpoint would resolve 200. -/
def envTrackFails : AuthEnv :=
  { baseEnv with
    createWalkEp := fun _ => .ok 201 { walkId := some 7 },
    trackEp := fun _ => .httpErr 500,
    stopEp := fun _ => .ok 200 () }

/-- State for C1: an authenticated session with a non-expiring token. -/
def stMigrate : AppSt :=
  { baseSt with token := some tokenExp2000, storToken := some tokenExp2000 }

/-- C1 (evaluation at the failing input): the walk-creation call succeeds
(HTTP 201) and the track-upload call fails (HTTP 500), yet `migrateGuestWalk`
returns `false` — axios rejects the non-2xx track response, the thrown error
skips the warn-and-continue branch and the stop step, and the outer catch
converts it to `false`.  The claim (and the code's own
"Failed to send coordinates, but walk was created" warning) expect `true`. -/
theorem C1_track_failure_migration_returns_false :
    envTrackFails.createWalkEp 0 = .ok 201 { walkId := some 7 } ∧
    envTrackFails.trackEp 0 = .httpErr 500 ∧
    (migrateGuestWalk walkOneCoord envTrackFails stMigrate).1 =
      Except.ok false ∧
    countCalls isCreateC
      (migrateGuestWalk walkOneCoord envTrackFails stMigrate).2.log = 1 ∧
    countCalls isStopC
      (migrateGuestWalk walkOneCoord envTrackFails stMigrate).2.log = 0 :=
  ⟨rfl, rfl, rfl, rfl, rfl⟩

/-! ## C3: pre-flight refresh network error -/

/-- Environment for the C3 counterexample: clock at 1000 (so the stored
`exp = 1000` token is expired), refresh fails with a network error, the
wrapped request would succeed. -/
def envPreflightNetErr : AuthEnv :=
  { baseEnv with
    nowSec := 1000,
    refreshEp := fun _ => .netErr,
    wrappedEp := fun _ => .ok 5 }

/-- State for the C3 counterexample: expired in-memory token, a stored
refresh token. -/
def stPreflight : AppSt :=
  { baseSt with token := some tokenExp1000, storRefresh := some "R" }

/-- Counterexample to C3 as stated: the current token is expired-or-expiring
and the pre-flight refresh fails (network error), but instead of proceeding
with the old token the invocation throws `NETWORK_ERROR` and the wrapped
request is never issued. -/
theorem C3_counterexample_preflight_network_error_aborts :
    isTokenExpiredOrExpiring envPreflightNetErr.nowSec tokenExp1000
      TOKEN_REFRESH_BUFFER_SECONDS = true ∧
    envPreflightNetErr.refreshEp 0 = .netErr ∧
    (authenticatedRequest wrappedRequest envPreflightNetErr stPreflight).1 =
      Except.error (.jsErr "NETWORK_ERROR") ∧
    countCalls isWrappedC
      (authenticatedRequest wrappedRequest envPreflightNetErr stPreflight).2.log
      = 0 :=
  ⟨rfl, rfl, rfl, rfl⟩

/-! ## C4: restore with a still-valid token and a 401 on revalidation -/

/-- Environment for the C4 counterexample: clock at 0 (stored token has 2000
seconds remaining, above the 300-second buffer), profile fetch rejected with
HTTP 401. -/
def envBackground401 : AuthEnv :=
  { baseEnv with profileEp := fun _ => .httpErr 401 }

/-- State for the C4 counterexample: a stored session (token and user data),
nothing in memory yet. -/
def stStoredValid : AppSt :=
  { baseSt with storToken := some tokenExp2000, storUser := some "1" }

/-- Counterexample to C4 as stated: the stored token has
`timeRemaining = 2000 > 0` and the profile fetch made during restore fails
with 401, yet restore yields an authenticated session (the session is adopted
before the background revalidation, whose 401 is ignored). -/
theorem C4_counterexample_401_keeps_session :
    getTokenTimeRemaining envBackground401.nowSec tokenExp2000 = some 2000 ∧
    envBackground401.profileEp 0 = .httpErr 401 ∧
    countCalls isProfileC (loadStoredAuth envBackground401 stStoredValid).2.log
      = 1 ∧
    (loadStoredAuth envBackground401 stStoredValid).2.token =
      some tokenExp2000 ∧
    (loadStoredAuth envBackground401 stStoredValid).2.user = some (.num 1) :=
  ⟨rfl, rfl, rfl, rfl, rfl⟩

/-! ## C5: restore with a fully expired token, no refresh token, offline -/

/-- Environment for the C5 counterexample: clock at 2000 (stored token fully
expired 1000 seconds ago), profile fetch fails with a network error. -/
def envExpiredNetErr : AuthEnv :=
  { baseEnv with nowSec := 2000, profileEp := fun _ => .netErr }

/-- State for the C5 counterexample: stored token and user data, no stored
refresh token. -/
def stStoredExpired : AppSt :=
  { baseSt with storToken := some tokenExp1000, storUser := some "1" }

/-- Counterexample to C5 as stated: the stored token is fully expired
(`timeRemaining = -1000 ≤ 0`), there is no refresh token, and the direct
profile fetch fails with a network error — yet the session is adopted, not
destroyed: this code path has no `timeRemaining > 0` grace condition. -/
theorem C5_counterexample_expired_offline_keeps_session :
    getTokenTimeRemaining envExpiredNetErr.nowSec tokenExp1000 =
      some (-1000) ∧
    stStoredExpired.storRefresh = none ∧
    envExpiredNetErr.profileEp 0 = .netErr ∧
    (loadStoredAuth envExpiredNetErr stStoredExpired).2.token =
      some tokenExp1000 ∧
    (loadStoredAuth envExpiredNetErr stStoredExpired).2.user = some (.num 1) :=
  ⟨rfl, rfl, rfl, rfl, rfl⟩

/-! ## C6: login rollback on profile-fetch failure -/

/-- The profile request fails: it either resolves without a 200 status and
truthy data, or is rejected (HTTP error or network error). -/
def profileFetchFails : HttpOut (Option JVal) → Prop
  | .ok st d => st ≠ 200 ∨ d = none
  | .httpErr _ => True
  | .netErr => True

/-- C6: whenever the token endpoint issues an access token but the subsequent
profile fetch fails (non-200 resolve, falsy data, HTTP rejection, or network
error), `login` returns `false` without throwing and the in-memory session
stays unauthenticated: token and user remain `null`. -/
theorem C6_login_profile_failure_rolls_back
    (env : AuthEnv) (email password : String)
    (storT storR storU : Option String) (b : Bool)
    (st0 : Nat) (rd : TokenRespData) (a : String)
    (hlc : env.loginEp 0 = .ok st0 rd)
    (hacc : jsOrStr rd.access_token rd.token = some a) (hane : a ≠ "")
    (hpf : profileFetchFails (env.profileEp 0)) :
    (login email password env
        ⟨storT, storR, storU, none, none, b, []⟩).1 = Except.ok false ∧
    (login email password env
        ⟨storT, storR, storU, none, none, b, []⟩).2.token = none ∧
    (login email password env
        ⟨storT, storR, storU, none, none, b, []⟩).2.user = none := by
  have ha : jsTruthyStr (some a) = true := jsTruthyStr_some hane
  cases hb : jsTruthyStr rd.refresh_token with
  | _ =>
    cases hp : env.profileEp 0 with
    | ok st d =>
        rw [hp] at hpf
        simp only [profileFetchFails] at hpf
        rcases hpf with hst | hd
        · simp [login, callLogin, axiosResolve, fetchUserProfile, callProfile,
            storageSet, setTokenState, setUserState, setIsLoadingState,
            logCall, jsonParseM, M.tryCatch_eq, M.bind_eq, M.pure_eq, M.throw,
            M.get, M.env, M.modify, countCalls, isLoginC, isProfileC, hlc,
            hacc, ha, hb, hp, hst]
        · subst hd
          simp [login, callLogin, axiosResolve, fetchUserProfile, callProfile,
            storageSet, setTokenState, setUserState, setIsLoadingState,
            logCall, jsonParseM, M.tryCatch_eq, M.bind_eq, M.pure_eq, M.throw,
            M.get, M.env, M.modify, countCalls, isLoginC, isProfileC, hlc,
            hacc, ha, hb, hp]
    | httpErr st =>
        simp [login, callLogin, axiosResolve, fetchUserProfile, callProfile,
          storageSet, setTokenState, setUserState, setIsLoadingState, logCall,
          jsonParseM, M.tryCatch_eq, M.bind_eq, M.pure_eq, M.throw, M.get,
          M.env, M.modify, countCalls, isLoginC, isProfileC, hlc, hacc, ha,
          hb, hp]
    | netErr =>
        simp [login, callLogin, axiosResolve, fetchUserProfile, callProfile,
          storageSet, setTokenState, setUserState, setIsLoadingState, logCall,
          jsonParseM, M.tryCatch_eq, M.bind_eq, M.pure_eq, M.throw, M.get,
          M.env, M.modify, countCalls, isLoginC, isProfileC, hlc, hacc, ha,
          hb, hp]

/-- Environment for the C6 witness: the token endpoint issues token `A`, the
profile fetch is rejected with HTTP 500. -/
def envLoginProfileFails : AuthEnv :=
  { baseEnv with
    loginEp := fun _ =>
      .ok 200 { access_token := some "A", token := none,
                refresh_token := some "R" },
    profileEp := fun _ => .httpErr 500 }

/-- Witness for `C6_login_profile_failure_rolls_back` at a concrete login. -/
theorem C6_witness :
    (login "e" "p" envLoginProfileFails baseSt).1 = Except.ok false ∧
    (login "e" "p" envLoginProfileFails baseSt).2.token = none ∧
    (login "e" "p" envLoginProfileFails baseSt).2.user = none :=
  C6_login_profile_failure_rolls_back envLoginProfileFails "e" "p"
    none none none true 200
    { access_token := some "A", token := none, refresh_token := some "R" }
    "A" rfl rfl (by decide) (by trivial)

/-! ## C2: reactive single refresh-and-retry -/

/-- C2: for a wrapped request that is rejected with 401 on its first
invocation, under a non-expiring current token and a stored refresh token:
if the refresh grants tokens, exactly one refresh happens and the request is
retried exactly once with the new token, the result being that retry's
outcome; if the refresh fails (HTTP failure, i.e. it returns `null`), the
session is destroyed (stored keys deleted, in-memory token and user nulled)
and the original 401 is re-thrown with no further attempt. -/
theorem C2_reactive_single_retry
    (env : AuthEnv) (t rt : String) (storT storU : Option String)
    (u0 : Option JVal) (b : Bool)
    (htne : t ≠ "") (hrtne : rt ≠ "")
    (hnexp : isTokenExpiredOrExpiring env.nowSec t
      TOKEN_REFRESH_BUFFER_SECONDS = false)
    (hw0 : env.wrappedEp 0 = .error (.axiosErr (some 401))) :
    (∀ (st0 : Nat) (rd : TokenRespData) (a : String),
        env.refreshEp 0 = .ok st0 rd →
        jsOrStr rd.access_token rd.token = some a → a ≠ "" →
        (authenticatedRequest wrappedRequest env
            ⟨storT, some rt, storU, some t, u0, b, []⟩).1 = env.wrappedEp 1 ∧
        wrappedTokens (authenticatedRequest wrappedRequest env
            ⟨storT, some rt, storU, some t, u0, b, []⟩).2.log = [t, a] ∧
        countCalls isRefreshC (authenticatedRequest wrappedRequest env
            ⟨storT, some rt, storU, some t, u0, b, []⟩).2.log = 1) ∧
    (∀ (stc : Nat),
        env.refreshEp 0 = .httpErr stc →
        (authenticatedRequest wrappedRequest env
            ⟨storT, some rt, storU, some t, u0, b, []⟩).1 =
          Except.error (.axiosErr (some 401)) ∧
        (authenticatedRequest wrappedRequest env
            ⟨storT, some rt, storU, some t, u0, b, []⟩).2.token = none ∧
        (authenticatedRequest wrappedRequest env
            ⟨storT, some rt, storU, some t, u0, b, []⟩).2.user = none ∧
        (authenticatedRequest wrappedRequest env
            ⟨storT, some rt, storU, some t, u0, b, []⟩).2.storToken = none ∧
        (authenticatedRequest wrappedRequest env
            ⟨storT, some rt, storU, some t, u0, b, []⟩).2.storRefresh = none ∧
        (authenticatedRequest wrappedRequest env
            ⟨storT, some rt, storU, some t, u0, b, []⟩).2.storUser = none ∧
        wrappedTokens (authenticatedRequest wrappedRequest env
            ⟨storT, some rt, storU, some t, u0, b, []⟩).2.log = [t] ∧
        countCalls isRefreshC (authenticatedRequest wrappedRequest env
            ⟨storT, some rt, storU, some t, u0, b, []⟩).2.log = 1) := by
  have ht : jsTruthyStr (some t) = true := jsTruthyStr_some htne
  have hrt : jsTruthyStr (some rt) = true := jsTruthyStr_some hrtne
  constructor
  · intro st0 rd a hr hacc hane
    have ha : jsTruthyStr (some a) = true := jsTruthyStr_some hane
    cases hw1 : env.wrappedEp 1 with
    | ok n =>
        simp [authenticatedRequest, wrappedRequest, refreshAccessToken,
          callRefresh, storageGet, storageSet, setTokenState, setUserState,
          logCall, clearStoredAuth, storageDelete, M.tryCatch_eq, M.bind_eq,
          M.pure_eq, M.throw, M.get, M.env, M.modify, countCalls, isWrappedC,
          isRefreshC, wrappedTokens, hnexp, hw0, hr, hacc, ht, ha, hrt, hw1]
    | error e =>
        simp [authenticatedRequest, wrappedRequest, refreshAccessToken,
          callRefresh, storageGet, storageSet, setTokenState, setUserState,
          logCall, clearStoredAuth, storageDelete, M.tryCatch_eq, M.bind_eq,
          M.pure_eq, M.throw, M.get, M.env, M.modify, countCalls, isWrappedC,
          isRefreshC, wrappedTokens, hnexp, hw0, hr, hacc, ht, ha, hrt, hw1]
  · intro stc hr
    simp [authenticatedRequest, wrappedRequest, refreshAccessToken,
      callRefresh, storageGet, storageSet, setTokenState, setUserState,
      logCall, clearStoredAuth, storageDelete, M.tryCatch_eq, M.bind_eq,
      M.pure_eq, M.throw, M.get, M.env, M.modify, countCalls, isWrappedC,
      isRefreshC, wrappedTokens, hnexp, hw0, hr, ht, hrt]

/-- Environment for the C2 witness: the wrapped request is rejected with 401
once and succeeds with 42 on the retry; the refresh grants token `B`. -/
def envReactive : AuthEnv :=
  { baseEnv with
    wrappedEp := fun n =>
      if n = 0 then .error (.axiosErr (some 401)) else .ok 42,
    refreshEp := fun _ =>
      .ok 200 { access_token := some "B", token := none,
                refresh_token := some "RB" } }

/-- Witness for `C2_reactive_single_retry`: the 401-then-success run returns
the retry's result after exactly one refresh, retried once with the new
token. -/
theorem C2_witness :
    (authenticatedRequest wrappedRequest envReactive
        ⟨none, some "RA", none, some tokenExp2000, none, true, []⟩).1 =
      Except.ok 42 ∧
    wrappedTokens (authenticatedRequest wrappedRequest envReactive
        ⟨none, some "RA", none, some tokenExp2000, none, true, []⟩).2.log =
      [tokenExp2000, "B"] ∧
    countCalls isRefreshC (authenticatedRequest wrappedRequest envReactive
        ⟨none, some "RA", none, some tokenExp2000, none, true, []⟩).2.log
      = 1 := by
  have h := (C2_reactive_single_retry envReactive tokenExp2000 "RA"
    none none none true (by decide) (by decide) (by decide) rfl).1
    200 { access_token := some "B", token := none, refresh_token := some "RB" }
    "B" rfl rfl (by decide)
  exact ⟨h.1.trans rfl, h.2.1, h.2.2⟩

/-! ## C3 (amended): pre-flight refresh behaviour -/

/-- C3 as amended: with an expired-or-expiring current token, a pre-flight
refresh is attempted exactly when a refresh token is stored; an HTTP-level
pre-flight refresh failure (refresh returns `null`) lets the wrapped request
proceed with the old token, and a successful refresh lets it proceed with the
new token — but a network error during the pre-flight refresh propagates as
`NETWORK_ERROR` and the wrapped request is not issued; with no stored refresh
token, no refresh is attempted and the request proceeds with the old token. -/
theorem C3_preflight_amended
    (env : AuthEnv) (t : String) (storT storU storR : Option String)
    (u0 : Option JVal) (b : Bool)
    (htne : t ≠ "")
    (hexp : isTokenExpiredOrExpiring env.nowSec t
      TOKEN_REFRESH_BUFFER_SECONDS = true) :
    (∀ (rt : String) (stc v : Nat),
        storR = some rt → rt ≠ "" → env.refreshEp 0 = .httpErr stc →
        env.wrappedEp 0 = .ok v →
        (authenticatedRequest wrappedRequest env
            ⟨storT, storR, storU, some t, u0, b, []⟩).1 = Except.ok v ∧
        wrappedTokens (authenticatedRequest wrappedRequest env
            ⟨storT, storR, storU, some t, u0, b, []⟩).2.log = [t] ∧
        countCalls isRefreshC (authenticatedRequest wrappedRequest env
            ⟨storT, storR, storU, some t, u0, b, []⟩).2.log = 1) ∧
    (∀ (rt : String) (st0 v : Nat) (rd : TokenRespData) (a : String),
        storR = some rt → rt ≠ "" → env.refreshEp 0 = .ok st0 rd →
        jsOrStr rd.access_token rd.token = some a → a ≠ "" →
        env.wrappedEp 0 = .ok v →
        (authenticatedRequest wrappedRequest env
            ⟨storT, storR, storU, some t, u0, b, []⟩).1 = Except.ok v ∧
        wrappedTokens (authenticatedRequest wrappedRequest env
            ⟨storT, storR, storU, some t, u0, b, []⟩).2.log = [a] ∧
        countCalls isRefreshC (authenticatedRequest wrappedRequest env
            ⟨storT, storR, storU, some t, u0, b, []⟩).2.log = 1) ∧
    (∀ (rt : String),
        storR = some rt → rt ≠ "" → env.refreshEp 0 = .netErr →
        (authenticatedRequest wrappedRequest env
            ⟨storT, storR, storU, some t, u0, b, []⟩).1 =
          Except.error (.jsErr "NETWORK_ERROR") ∧
        countCalls isWrappedC (authenticatedRequest wrappedRequest env
            ⟨storT, storR, storU, some t, u0, b, []⟩).2.log = 0) ∧
    (∀ (v : Nat),
        jsTruthyStr storR = false → env.wrappedEp 0 = .ok v →
        (authenticatedRequest wrappedRequest env
            ⟨storT, storR, storU, some t, u0, b, []⟩).1 = Except.ok v ∧
        wrappedTokens (authenticatedRequest wrappedRequest env
            ⟨storT, storR, storU, some t, u0, b, []⟩).2.log = [t] ∧
        countCalls isRefreshC (authenticatedRequest wrappedRequest env
            ⟨storT, storR, storU, some t, u0, b, []⟩).2.log = 0) := by
  have ht : jsTruthyStr (some t) = true := jsTruthyStr_some htne
  refine ⟨?_, ?_, ?_, ?_⟩
  · intro rt stc v hsr hrtne hr hw
    subst hsr
    have hrt : jsTruthyStr (some rt) = true := jsTruthyStr_some hrtne
    simp [authenticatedRequest, wrappedRequest, refreshAccessToken,
      callRefresh, storageGet, storageSet, setTokenState, setUserState,
      logCall, clearStoredAuth, storageDelete, M.tryCatch_eq, M.bind_eq,
      M.pure_eq, M.throw, M.get, M.env, M.modify, countCalls, isWrappedC,
      isRefreshC, wrappedTokens, hexp, hr, hw, ht, hrt]
  · intro rt st0 v rd a hsr hrtne hr hacc hane hw
    subst hsr
    have hrt : jsTruthyStr (some rt) = true := jsTruthyStr_some hrtne
    have ha : jsTruthyStr (some a) = true := jsTruthyStr_some hane
    simp [authenticatedRequest, wrappedRequest, refreshAccessToken,
      callRefresh, storageGet, storageSet, setTokenState, setUserState,
      logCall, clearStoredAuth, storageDelete, M.tryCatch_eq, M.bind_eq,
      M.pure_eq, M.throw, M.get, M.env, M.modify, countCalls, isWrappedC,
      isRefreshC, wrappedTokens, hexp, hr, hacc, hw, ht, hrt, ha]
  · intro rt hsr hrtne hr
    subst hsr
    have hrt : jsTruthyStr (some rt) = true := jsTruthyStr_some hrtne
    simp [authenticatedRequest, wrappedRequest, refreshAccessToken,
      callRefresh, storageGet, storageSet, setTokenState, setUserState,
      logCall, clearStoredAuth, storageDelete, M.tryCatch_eq, M.bind_eq,
      M.pure_eq, M.throw, M.get, M.env, M.modify, countCalls, isWrappedC,
      isRefreshC, wrappedTokens, hexp, hr, ht, hrt]
  · intro v hsr hw
    simp [authenticatedRequest, wrappedRequest, refreshAccessToken,
      callRefresh, storageGet, storageSet, setTokenState, setUserState,
      logCall, clearStoredAuth, storageDelete, M.tryCatch_eq, M.bind_eq,
      M.pure_eq, M.throw, M.get, M.env, M.modify, countCalls, isWrappedC,
      isRefreshC, wrappedTokens, hexp, hsr, hw, ht]

/-- Environment for the C3 witness: expired token (clock at 1000), pre-flight
refresh rejected with HTTP 500, wrapped request succeeds with 5. -/
def envPreflightHttpErr : AuthEnv :=
  { baseEnv with
    nowSec := 1000,
    refreshEp := fun _ => .httpErr 500,
    wrappedEp := fun _ => .ok 5 }

/-- Witness for `C3_preflight_amended`: an HTTP-failing pre-flight refresh
still lets the wrapped request run with the old token. -/
theorem C3_amended_witness :
    (authenticatedRequest wrappedRequest envPreflightHttpErr
        ⟨none, some "R", none, some tokenExp1000, none, true, []⟩).1 =
      Except.ok 5 ∧
    wrappedTokens (authenticatedRequest wrappedRequest envPreflightHttpErr
        ⟨none, some "R", none, some tokenExp1000, none, true, []⟩).2.log =
      [tokenExp1000] ∧
    countCalls isRefreshC (authenticatedRequest wrappedRequest
        envPreflightHttpErr
        ⟨none, some "R", none, some tokenExp1000, none, true, []⟩).2.log
      = 1 :=
  (C3_preflight_amended envPreflightHttpErr tokenExp1000
    none none (some "R") none true (by decide) (by decide)).1
    "R" 500 5 rfl (by decide) rfl rfl

/-! ## C10: a reactive retry re-runs the whole migration callback -/

/-- C10: when the walk-creation step succeeds and the track-upload step (or,
with the track upload succeeding, the stop step) is rejected with 401, a
successful reactive refresh re-invokes the whole wrapped callback from its
beginning: the walk-creation request is issued a second time with the new
token (creating a second server-side walk record when it succeeds), and the
migration reports `true`. -/
theorem C10_retry_duplicates_walk_creation
    (env : AuthEnv) (t rt : String) (storT storU : Option String)
    (u0 : Option JVal) (b : Bool) (w0 w1 : Nat)
    (st0 : Nat) (rd : TokenRespData) (a : String)
    (walkData : GuestWalkData)
    (htne : t ≠ "") (hrtne : rt ≠ "")
    (hnexp : isTokenExpiredOrExpiring env.nowSec t
      TOKEN_REFRESH_BUFFER_SECONDS = false)
    (hcoords : 0 < walkData.routeCoordinates.length)
    (hcreate0 : env.createWalkEp 0 = .ok 201 { walkId := some w0 })
    (hrefresh : env.refreshEp 0 = .ok st0 rd)
    (hacc : jsOrStr rd.access_token rd.token = some a) (hane : a ≠ "")
    (hcreate1 : env.createWalkEp 1 = .ok 201 { walkId := some w1 })
    (htrack1 : env.trackEp 1 = .ok 200 ()) :
    (env.trackEp 0 = .httpErr 401 → env.stopEp 0 = .ok 200 () →
      (migrateGuestWalk walkData env
          ⟨storT, some rt, storU, some t, u0, b, []⟩).1 = Except.ok true ∧
      (migrateGuestWalk walkData env
          ⟨storT, some rt, storU, some t, u0, b, []⟩).2.log =
        [.createC t, .trackC t (some w0), .refreshC rt,
         .createC a, .trackC a (some w1), .stopC a (some w1)] ∧
      countCalls isCreateC (migrateGuestWalk walkData env
          ⟨storT, some rt, storU, some t, u0, b, []⟩).2.log = 2) ∧
    (env.trackEp 0 = .ok 200 () → env.stopEp 0 = .httpErr 401 →
      env.stopEp 1 = .ok 200 () →
      (migrateGuestWalk walkData env
          ⟨storT, some rt, storU, some t, u0, b, []⟩).1 = Except.ok true ∧
      (migrateGuestWalk walkData env
          ⟨storT, some rt, storU, some t, u0, b, []⟩).2.log =
        [.createC t, .trackC t (some w0), .stopC t (some w0), .refreshC rt,
         .createC a, .trackC a (some w1), .stopC a (some w1)] ∧
      countCalls isCreateC (migrateGuestWalk walkData env
          ⟨storT, some rt, storU, some t, u0, b, []⟩).2.log = 2) := by
  have ht : jsTruthyStr (some t) = true := jsTruthyStr_some htne
  have hrt : jsTruthyStr (some rt) = true := jsTruthyStr_some hrtne
  have ha : jsTruthyStr (some a) = true := jsTruthyStr_some hane
  constructor
  · intro htrack0 hstop0
    simp [migrateGuestWalk, authenticatedRequest, refreshAccessToken,
      callRefresh, callCreate, callTrack, callStop, axiosResolve, storageGet,
      storageSet, setTokenState, setUserState, logCall, clearStoredAuth,
      storageDelete, M.tryCatch_eq, M.bind_eq, M.pure_eq, M.throw, M.get,
      M.env, M.modify, countCalls, isCreateC, isTrackC, isStopC, isRefreshC,
      hnexp, hcoords, hcreate0, hrefresh, hacc, hcreate1, htrack0, htrack1,
      hstop0, ht, hrt, ha]
  · intro htrack0 hstop0 hstop1
    simp [migrateGuestWalk, authenticatedRequest, refreshAccessToken,
      callRefresh, callCreate, callTrack, callStop, axiosResolve, storageGet,
      storageSet, setTokenState, setUserState, logCall, clearStoredAuth,
      storageDelete, M.tryCatch_eq, M.bind_eq, M.pure_eq, M.throw, M.get,
      M.env, M.modify, countCalls, isCreateC, isTrackC, isStopC, isRefreshC,
      hnexp, hcoords, hcreate0, hrefresh, hacc, hcreate1, htrack0, htrack1,
      hstop0, hstop1, ht, hrt, ha]

/-- Environment for the C10 witness: walk creation always resolves 201 (walk
ids 7, then 8), the first track upload is rejected with 401 and the second
succeeds, stop succeeds, and the refresh grants token `B`. -/
def envWalk401 : AuthEnv :=
  { baseEnv with
    createWalkEp := fun n => .ok 201 { walkId := some (7 + n) },
    trackEp := fun n => if n = 0 then .httpErr 401 else .ok 200 (),
    stopEp := fun _ => .ok 200 (),
    refreshEp := fun _ =>
      .ok 200 { access_token := some "B", token := none,
                refresh_token := some "RB" } }

/-- Witness for `C10_retry_duplicates_walk_creation`: the concrete run issues
the walk-creation request twice and reports `true`. -/
theorem C10_witness :
    (migrateGuestWalk walkOneCoord envWalk401
        ⟨none, some "RA", none, some tokenExp2000, none, true, []⟩).1 =
      Except.ok true ∧
    countCalls isCreateC (migrateGuestWalk walkOneCoord envWalk401
        ⟨none, some "RA", none, some tokenExp2000, none, true, []⟩).2.log
      = 2 := by
  have h := (C10_retry_duplicates_walk_creation envWalk401 tokenExp2000 "RA"
    none none none true 7 8 200
    { access_token := some "B", token := none, refresh_token := some "RB" }
    "B" walkOneCoord (by decide) (by decide) (by decide) (by decide)
    rfl rfl rfl (by decide) rfl rfl).1 rfl rfl
  exact ⟨h.1, h.2.2⟩

/-! ## C4 (amended) and C5 (amended): session restoration -/

/-- C4 as amended: for a stored session whose token has
`0 < timeRemaining ≤ buffer` (the blocking verification paths), a
network-error failure of the restore-time refresh or profile fetch yields an
authenticated session with the stale stored token, and a 401/403 (or any
HTTP) failure yields no session; for `timeRemaining > buffer` the session is
adopted before any network call and a 401/403 failure of the background
revalidation leaves the session in place. -/
theorem C4_restore_amended
    (env : AuthEnv) (tk us : String) (storR : Option String)
    (b : Bool) (p : JVal) (e : Int) (uj : JVal)
    (htne : tk ≠ "") (husne : us ≠ "")
    (hus : jsonParse us.data = some uj)
    (hdec : decodeJWT tk = some p)
    (hexp : p.getField "exp" = some (.num e)) (he0 : e ≠ 0) :
    (∀ (rt : String) , e - env.nowSec ≤ TOKEN_REFRESH_BUFFER_SECONDS →
        0 < e - env.nowSec → storR = some rt → rt ≠ "" →
        env.refreshEp 0 = .netErr →
        (loadStoredAuth env ⟨some tk, storR, some us, none, none, b, []⟩).2.token
          = some tk ∧
        (loadStoredAuth env ⟨some tk, storR, some us, none, none, b, []⟩).2.user
          = some uj) ∧
    (∀ (rt : String) (stc : Nat),
        e - env.nowSec ≤ TOKEN_REFRESH_BUFFER_SECONDS →
        storR = some rt → rt ≠ "" → env.refreshEp 0 = .httpErr stc →
        (loadStoredAuth env ⟨some tk, storR, some us, none, none, b, []⟩).2.token
          = none ∧
        (loadStoredAuth env ⟨some tk, storR, some us, none, none, b, []⟩).2.user
          = none ∧
        (loadStoredAuth env
          ⟨some tk, storR, some us, none, none, b, []⟩).2.storToken = none ∧
        (loadStoredAuth env
          ⟨some tk, storR, some us, none, none, b, []⟩).2.storRefresh = none ∧
        (loadStoredAuth env
          ⟨some tk, storR, some us, none, none, b, []⟩).2.storUser = none) ∧
    (∀ (rt : String) (st0 : Nat) (rd : TokenRespData) (a : String),
        e - env.nowSec ≤ TOKEN_REFRESH_BUFFER_SECONDS → 0 < e - env.nowSec →
        storR = some rt → rt ≠ "" → env.refreshEp 0 = .ok st0 rd →
        jsOrStr rd.access_token rd.token = some a → a ≠ "" →
        env.profileEp 0 = .netErr →
        (loadStoredAuth env ⟨some tk, storR, some us, none, none, b, []⟩).2.token
          = some tk ∧
        (loadStoredAuth env ⟨some tk, storR, some us, none, none, b, []⟩).2.user
          = some uj) ∧
    (∀ (rt : String) (st0 stp : Nat) (rd : TokenRespData) (a : String),
        e - env.nowSec ≤ TOKEN_REFRESH_BUFFER_SECONDS →
        storR = some rt → rt ≠ "" → env.refreshEp 0 = .ok st0 rd →
        jsOrStr rd.access_token rd.token = some a → a ≠ "" →
        env.profileEp 0 = .httpErr stp →
        (loadStoredAuth env ⟨some tk, storR, some us, none, none, b, []⟩).2.token
          = none ∧
        (loadStoredAuth env ⟨some tk, storR, some us, none, none, b, []⟩).2.user
          = none ∧
        (loadStoredAuth env
          ⟨some tk, storR, some us, none, none, b, []⟩).2.storToken = none ∧
        (loadStoredAuth env
          ⟨some tk, storR, some us, none, none, b, []⟩).2.storRefresh = none ∧
        (loadStoredAuth env
          ⟨some tk, storR, some us, none, none, b, []⟩).2.storUser = none) ∧
    (e - env.nowSec ≤ TOKEN_REFRESH_BUFFER_SECONDS → 0 < e - env.nowSec →
        jsTruthyStr storR = false → env.profileEp 0 = .netErr →
        (loadStoredAuth env ⟨some tk, storR, some us, none, none, b, []⟩).2.token
          = some tk ∧
        (loadStoredAuth env ⟨some tk, storR, some us, none, none, b, []⟩).2.user
          = some uj) ∧
    (∀ (stp : Nat),
        e - env.nowSec ≤ TOKEN_REFRESH_BUFFER_SECONDS →
        jsTruthyStr storR = false → env.profileEp 0 = .httpErr stp →
        (loadStoredAuth env ⟨some tk, storR, some us, none, none, b, []⟩).2.token
          = none ∧
        (loadStoredAuth env ⟨some tk, storR, some us, none, none, b, []⟩).2.user
          = none ∧
        (loadStoredAuth env
          ⟨some tk, storR, some us, none, none, b, []⟩).2.storToken = none ∧
        (loadStoredAuth env
          ⟨some tk, storR, some us, none, none, b, []⟩).2.storRefresh = none ∧
        (loadStoredAuth env
          ⟨some tk, storR, some us, none, none, b, []⟩).2.storUser = none) ∧
    (∀ (stp : Nat),
        TOKEN_REFRESH_BUFFER_SECONDS < e - env.nowSec →
        env.profileEp 0 = .httpErr stp →
        (loadStoredAuth env ⟨some tk, storR, some us, none, none, b, []⟩).2.token
          = some tk ∧
        (loadStoredAuth env ⟨some tk, storR, some us, none, none, b, []⟩).2.user
          = some uj) := by
  have ht : jsTruthyStr (some tk) = true := jsTruthyStr_some htne
  have hu : jsTruthyStr (some us) = true := jsTruthyStr_some husne
  have htr : getTokenTimeRemaining env.nowSec tk = some (e - env.nowSec) := by
    simp [getTokenTimeRemaining, hdec, hexp, he0]
  refine ⟨?_, ?_, ?_, ?_, ?_, ?_, ?_⟩
  · intro rt hle hpos hsr hrtne hr
    subst hsr
    have hrt : jsTruthyStr (some rt) = true := jsTruthyStr_some hrtne
    have hbuf : tmAboveBuffer (some (e - env.nowSec)) = false := by
      simp only [tmAboveBuffer, decide_eq_false_iff_not]
      omega
    have hp : tmPositive (some (e - env.nowSec)) = true := by
      simp only [tmPositive, decide_eq_true_eq]
      omega
    simp [loadStoredAuth, refreshAccessToken, fetchUserProfile, callRefresh,
      callProfile, storageGet, storageSet, storageDelete, clearStoredAuth,
      setTokenState, setUserState, setIsLoadingState, logCall, jsonParseM,
      M.tryCatch_eq, M.bind_eq, M.pure_eq, M.throw, M.get, M.env, M.modify,
      countCalls, isRefreshC, isProfileC,
      htr, hbuf, hp, hr, hus, ht, hu, hrt]
  · intro rt stc hle hsr hrtne hr
    subst hsr
    have hrt : jsTruthyStr (some rt) = true := jsTruthyStr_some hrtne
    have hbuf : tmAboveBuffer (some (e - env.nowSec)) = false := by
      simp only [tmAboveBuffer, decide_eq_false_iff_not]
      omega
    simp [loadStoredAuth, refreshAccessToken, fetchUserProfile, callRefresh,
      callProfile, storageGet, storageSet, storageDelete, clearStoredAuth,
      setTokenState, setUserState, setIsLoadingState, logCall, jsonParseM,
      M.tryCatch_eq, M.bind_eq, M.pure_eq, M.throw, M.get, M.env, M.modify,
      countCalls, isRefreshC, isProfileC,
      htr, hbuf, hr, hus, ht, hu, hrt]
  · intro rt st0 rd a hle hpos hsr hrtne hr hacc hane hpf
    subst hsr
    have hrt : jsTruthyStr (some rt) = true := jsTruthyStr_some hrtne
    have ha : jsTruthyStr (some a) = true := jsTruthyStr_some hane
    have hbuf : tmAboveBuffer (some (e - env.nowSec)) = false := by
      simp only [tmAboveBuffer, decide_eq_false_iff_not]
      omega
    have hp : tmPositive (some (e - env.nowSec)) = true := by
      simp only [tmPositive, decide_eq_true_eq]
      omega
    simp [loadStoredAuth, refreshAccessToken, fetchUserProfile, callRefresh,
      callProfile, storageGet, storageSet, storageDelete, clearStoredAuth,
      setTokenState, setUserState, setIsLoadingState, logCall, jsonParseM,
      M.tryCatch_eq, M.bind_eq, M.pure_eq, M.throw, M.get, M.env, M.modify,
      countCalls, isRefreshC, isProfileC,
      htr, hbuf, hp, hr, hacc, hpf, hus, ht, hu, hrt, ha]
  · intro rt st0 stp rd a hle hsr hrtne hr hacc hane hpf
    subst hsr
    have hrt : jsTruthyStr (some rt) = true := jsTruthyStr_some hrtne
    have ha : jsTruthyStr (some a) = true := jsTruthyStr_some hane
    have hbuf : tmAboveBuffer (some (e - env.nowSec)) = false := by
      simp only [tmAboveBuffer, decide_eq_false_iff_not]
      omega
    simp [loadStoredAuth, refreshAccessToken, fetchUserProfile, callRefresh,
      callProfile, storageGet, storageSet, storageDelete, clearStoredAuth,
      setTokenState, setUserState, setIsLoadingState, logCall, jsonParseM,
      M.tryCatch_eq, M.bind_eq, M.pure_eq, M.throw, M.get, M.env, M.modify,
      countCalls, isRefreshC, isProfileC,
      htr, hbuf, hr, hacc, hpf, hus, ht, hu, hrt, ha]
  · intro hle hpos hsr hpf
    have hbuf : tmAboveBuffer (some (e - env.nowSec)) = false := by
      simp only [tmAboveBuffer, decide_eq_false_iff_not]
      omega
    simp [loadStoredAuth, refreshAccessToken, fetchUserProfile, callRefresh,
      callProfile, storageGet, storageSet, storageDelete, clearStoredAuth,
      setTokenState, setUserState, setIsLoadingState, logCall, jsonParseM,
      M.tryCatch_eq, M.bind_eq, M.pure_eq, M.throw, M.get, M.env, M.modify,
      countCalls, isRefreshC, isProfileC,
      htr, hbuf, hsr, hpf, hus, ht, hu]
  · intro stp hle hsr hpf
    have hbuf : tmAboveBuffer (some (e - env.nowSec)) = false := by
      simp only [tmAboveBuffer, decide_eq_false_iff_not]
      omega
    simp [loadStoredAuth, refreshAccessToken, fetchUserProfile, callRefresh,
      callProfile, storageGet, storageSet, storageDelete, clearStoredAuth,
      setTokenState, setUserState, setIsLoadingState, logCall, jsonParseM,
      M.tryCatch_eq, M.bind_eq, M.pure_eq, M.throw, M.get, M.env, M.modify,
      countCalls, isRefreshC, isProfileC,
      htr, hbuf, hsr, hpf, hus, ht, hu]
  · intro stp hgt hpf
    have hbuf : tmAboveBuffer (some (e - env.nowSec)) = true := by
      simp only [tmAboveBuffer, decide_eq_true_eq]
      omega
    simp [loadStoredAuth, refreshAccessToken, fetchUserProfile, callRefresh,
      callProfile, storageGet, storageSet, storageDelete, clearStoredAuth,
      setTokenState, setUserState, setIsLoadingState, logCall, jsonParseM,
      M.tryCatch_eq, M.bind_eq, M.pure_eq, M.throw, M.get, M.env, M.modify,
      countCalls, isRefreshC, isProfileC,
      htr, hbuf, hpf, hus, ht, hu]

/-- Environment for the C4 witness: clock at 800 (the `exp = 1000` token has
200 seconds remaining, inside the 300-second buffer), refresh fails with a
network error. -/
def envRestoreOffline : AuthEnv := { baseEnv with nowSec := 800 }

/-- Witness for `C4_restore_amended` (network-error branch with a refresh
token): restore adopts the stale stored session. -/
theorem C4_amended_witness :
    (loadStoredAuth envRestoreOffline
        ⟨some tokenExp1000, some "R", some "1", none, none, true, []⟩).2.token
      = some tokenExp1000 ∧
    (loadStoredAuth envRestoreOffline
        ⟨some tokenExp1000, some "R", some "1", none, none, true, []⟩).2.user
      = some (.num 1) :=
  (C4_restore_amended envRestoreOffline tokenExp1000 "1" (some "R") true
    (.obj [("exp", .num 1000)]) 1000 (.num 1) (by decide) (by decide)
    rfl rfl rfl (by decide)).1
    "R" (by decide) (by decide) rfl (by decide) rfl

/-- C5 as amended: in the expiring-token path with no stored refresh token,
the direct profile fetch with the current token adopts the session on
success, destroys it on 401/403, and on a network error keeps the stale
session unconditionally — even when the token's remaining time is `≤ 0`
(there is no grace condition in this path). -/
theorem C5_restore_no_refresh_token_amended
    (env : AuthEnv) (tk us : String) (storR : Option String)
    (b : Bool) (p : JVal) (e : Int) (uj : JVal)
    (htne : tk ≠ "") (husne : us ≠ "")
    (hus : jsonParse us.data = some uj)
    (hdec : decodeJWT tk = some p)
    (hexp : p.getField "exp" = some (.num e)) (he0 : e ≠ 0)
    (hle : e - env.nowSec ≤ TOKEN_REFRESH_BUFFER_SECONDS)
    (hsr : jsTruthyStr storR = false) :
    (∀ (u : JVal), env.profileEp 0 = .ok 200 (some u) →
        (loadStoredAuth env ⟨some tk, storR, some us, none, none, b, []⟩).2.token
          = some tk ∧
        (loadStoredAuth env ⟨some tk, storR, some us, none, none, b, []⟩).2.user
          = some u ∧
        (loadStoredAuth env
          ⟨some tk, storR, some us, none, none, b, []⟩).2.storUser
          = some (JVal.render u)) ∧
    (∀ (stp : Nat), env.profileEp 0 = .httpErr stp →
        stp = 401 ∨ stp = 403 →
        (loadStoredAuth env ⟨some tk, storR, some us, none, none, b, []⟩).2.token
          = none ∧
        (loadStoredAuth env ⟨some tk, storR, some us, none, none, b, []⟩).2.user
          = none ∧
        (loadStoredAuth env
          ⟨some tk, storR, some us, none, none, b, []⟩).2.storToken = none ∧
        (loadStoredAuth env
          ⟨some tk, storR, some us, none, none, b, []⟩).2.storRefresh = none ∧
        (loadStoredAuth env
          ⟨some tk, storR, some us, none, none, b, []⟩).2.storUser = none) ∧
    (env.profileEp 0 = .netErr →
        (loadStoredAuth env ⟨some tk, storR, some us, none, none, b, []⟩).2.token
          = some tk ∧
        (loadStoredAuth env ⟨some tk, storR, some us, none, none, b, []⟩).2.user
          = some uj) := by
  have ht : jsTruthyStr (some tk) = true := jsTruthyStr_some htne
  have hu : jsTruthyStr (some us) = true := jsTruthyStr_some husne
  have htr : getTokenTimeRemaining env.nowSec tk = some (e - env.nowSec) := by
    simp [getTokenTimeRemaining, hdec, hexp, he0]
  have hbuf : tmAboveBuffer (some (e - env.nowSec)) = false := by
    simp only [tmAboveBuffer, decide_eq_false_iff_not]
    omega
  refine ⟨?_, ?_, ?_⟩
  · intro u hpf
    simp [loadStoredAuth, refreshAccessToken, fetchUserProfile, callRefresh,
      callProfile, storageGet, storageSet, storageDelete, clearStoredAuth,
      setTokenState, setUserState, setIsLoadingState, logCall, jsonParseM,
      M.tryCatch_eq, M.bind_eq, M.pure_eq, M.throw, M.get, M.env, M.modify,
      countCalls, isRefreshC, isProfileC,
      htr, hbuf, hsr, hpf, hus, ht, hu]
  · intro stp hpf _
    simp [loadStoredAuth, refreshAccessToken, fetchUserProfile, callRefresh,
      callProfile, storageGet, storageSet, storageDelete, clearStoredAuth,
      setTokenState, setUserState, setIsLoadingState, logCall, jsonParseM,
      M.tryCatch_eq, M.bind_eq, M.pure_eq, M.throw, M.get, M.env, M.modify,
      countCalls, isRefreshC, isProfileC,
      htr, hbuf, hsr, hpf, hus, ht, hu]
  · intro hpf
    simp [loadStoredAuth, refreshAccessToken, fetchUserProfile, callRefresh,
      callProfile, storageGet, storageSet, storageDelete, clearStoredAuth,
      setTokenState, setUserState, setIsLoadingState, logCall, jsonParseM,
      M.tryCatch_eq, M.bind_eq, M.pure_eq, M.throw, M.get, M.env, M.modify,
      countCalls, isRefreshC, isProfileC,
      htr, hbuf, hsr, hpf, hus, ht, hu]

/-- Environment for the C5 witness: clock at 2000 (the `exp = 1000` token
expired 1000 seconds ago), profile fetch fails with a network error. -/
def envRestoreExpiredOffline : AuthEnv := { baseEnv with nowSec := 2000 }

/-- Witness for `C5_restore_no_refresh_token_amended` (network-error branch):
the fully expired stored session is adopted anyway. -/
theorem C5_amended_witness :
    (loadStoredAuth envRestoreExpiredOffline
        ⟨some tokenExp1000, none, some "1", none, none, true, []⟩).2.token
      = some tokenExp1000 ∧
    (loadStoredAuth envRestoreExpiredOffline
        ⟨some tokenExp1000, none, some "1", none, none, true, []⟩).2.user
      = some (.num 1) :=
  (C5_restore_no_refresh_token_amended envRestoreExpiredOffline tokenExp1000
    "1" none true (.obj [("exp", .num 1000)]) 1000 (.num 1) (by decide)
    (by decide) rfl rfl rfl (by decide) (by decide) rfl).2.2 rfl

end WalkDog
